import Mathlib

/-!
Shallow embedding of the t_cose short-circuit verification path, the signer
interface contract, and the mini-sign round trip.

Sources embedded:
 - t_cose_signature_verify_short.c (the verify1 / verify callbacks and init)
 - inc/t_cose/t_cose_signature_sign.h (the signer vtable contract)
 - test/t_cose_austere_test.c (the mini-sign round-trip test)

Code of the repository that is not present in the provided sources
(the crypto adapter, t_cose_util, t_cose_parameters, the sign/verify
engines) is modelled from the spec; every such definition carries a doc
comment starting with "Modelled from the spec:".

Byte strings (struct q_useful_buf_c) are modelled as List Nat.  Machine
integers never overflow in the embedded paths, so Int/Nat are used
directly.  Where a claim is about steps being performed or skipped, the
embedded function additionally returns the ordered list of operations it
performed (a trace), mirroring the source's control flow statement by
statement.
-/

/-- Error codes from t_cose_common.h, restricted to the constructors the
embedded code paths can produce or propagate. -/
inductive t_cose_err_t where
  | T_COSE_SUCCESS
  | T_COSE_ERR_UNSUPPORTED_SIGNING_ALG
  | T_COSE_ERR_KID_UNMATCHED
  | T_COSE_ERR_SIG_VERIFY_FAIL
  | T_COSE_ERR_SIGN1_FORMAT
  | T_COSE_ERR_CBOR_NOT_WELL_FORMED
  | T_COSE_ERR_UNSUPPORTED_HASH
  | T_COSE_ERR_HASH_GENERAL_FAIL
  | T_COSE_ERR_NO_ALG_SPECIFIED
  | T_COSE_ERR_TOO_MANY_PARAMETERS
  | T_COSE_ERR_DUPLICATE_PARAMETER
  | T_COSE_ERR_NO_VERIFIER_FOR_ALG
  deriving DecidableEq

/-- Model of struct q_useful_buf_c: a byte string.  The NULL buffer and the
empty buffer both compare equal to the empty list, matching
UsefulBuf_Compare which compares length and then bytes. -/
abbrev UsefulBufC := List Nat

/-- Model of q_useful_buf_compare: 0 when the two buffers have the same
length and bytes, nonzero otherwise. -/
def q_useful_buf_compare (a b : UsefulBufC) : Int :=
  if a = b then 0 else 1

/-- Header parameter values, per the spec's header parameter model. -/
inductive t_cose_parameter_value where
  | int_val (i : Int)
  | bstr_val (b : List Nat)
  | tstr_val (s : String)
  | bool_val (b : Bool)
  deriving DecidableEq

/-- A single decoded header parameter: label, bucket flag, value. -/
structure t_cose_parameter where
  label : Int
  in_protected : Bool
  value : t_cose_parameter_value
  deriving DecidableEq

/-- IANA label for the alg parameter. -/
def T_COSE_HEADER_PARAM_ALG : Int := 1

/-- IANA label for the kid parameter. -/
def T_COSE_HEADER_PARAM_KID : Int := 4

/-- Algorithm id meaning none found. -/
def T_COSE_ALGORITHM_NONE : Int := 0

/-- Reserved short-circuit algorithm ids (test-only), one per hash size. -/
def T_COSE_ALGORITHM_SHORT_CIRCUIT_256 : Int := -1000256

def T_COSE_ALGORITHM_SHORT_CIRCUIT_384 : Int := -1000384

def T_COSE_ALGORITHM_SHORT_CIRCUIT_512 : Int := -1000512

/-- COSE ES256 algorithm id. -/
def T_COSE_ALGORITHM_ES256 : Int := -7

/-- Modelled from the spec: t_cose_algorithm_is_short_circuit (t_cose_util),
true exactly for the reserved short-circuit algorithm ids. -/
def t_cose_algorithm_is_short_circuit (a : Int) : Bool :=
  a == T_COSE_ALGORITHM_SHORT_CIRCUIT_256 ||
  a == T_COSE_ALGORITHM_SHORT_CIRCUIT_384 ||
  a == T_COSE_ALGORITHM_SHORT_CIRCUIT_512

/-- Option flag T_COSE_OPT_DECODE_ONLY. -/
def T_COSE_OPT_DECODE_ONLY : Nat := 8

/-- Modelled from the spec: t_cose_find_parameter_alg_id (t_cose_parameters),
the alg id from the protected bucket, or NONE when absent or of wrong type;
the spec requires alg to be in the protected bucket. -/
def t_cose_find_parameter_alg_id (ps : List t_cose_parameter) : Int :=
  match ps.find? (fun p => p.label == T_COSE_HEADER_PARAM_ALG && p.in_protected) with
  | some p =>
      match p.value with
      | .int_val i => i
      | _ => T_COSE_ALGORITHM_NONE
  | none => T_COSE_ALGORITHM_NONE

/-- Modelled from the spec: t_cose_find_parameter_kid (t_cose_parameters),
the kid byte string, or the NULL buffer (empty) when absent. -/
def t_cose_find_parameter_kid (ps : List t_cose_parameter) : UsefulBufC :=
  match ps.find? (fun p => p.label == T_COSE_HEADER_PARAM_KID) with
  | some p =>
      match p.value with
      | .bstr_val b => b
      | _ => []
  | none => []

/-- Modelled from the spec: the fixed kid that identifies short-circuit
signatures (get_short_circuit_kid in t_cose_util); a fixed 32-byte value. -/
def get_short_circuit_kid : UsefulBufC :=
  [0xef, 0x95, 0x4b, 0x4b, 0xd9, 0xbd, 0xf6, 0x70,
   0xd0, 0x33, 0x60, 0x82, 0xf5, 0xef, 0x15, 0x2a,
   0xf8, 0xf3, 0x5b, 0x6a, 0x6c, 0x00, 0xef, 0xa6,
   0xa9, 0xa7, 0x1f, 0x49, 0x51, 0x7e, 0x18, 0xc6]

/-- Digest length of the hash an algorithm id uses; 0 for unsupported. -/
def t_cose_hash_size (a : Int) : Nat :=
  if a = T_COSE_ALGORITHM_ES256 then 32
  else if a = T_COSE_ALGORITHM_SHORT_CIRCUIT_256 then 32
  else if a = T_COSE_ALGORITHM_SHORT_CIRCUIT_384 then 48
  else if a = T_COSE_ALGORITHM_SHORT_CIRCUIT_512 then 64
  else 0

/-- Modelled from the spec: a deterministic fixed-length digest standing in
for the hash primitive of the crypto adapter.  Only determinism and the
output length matter to the embedded claims. -/
def model_hash (n : Nat) (data : List Nat) : List Nat :=
  (List.range n).map
    (fun i => (data.foldl (fun acc b => (acc * 131 + b + 1) % 4294967291) (i + 7)) % 256)

/-- Modelled from the spec: the serialized Sig_structure of RFC 9052 4.4
over which the TBS hash is computed; a length-delimited concatenation of
body protected headers, signer protected headers, aad and payload. -/
def tbs_bytes (bodyProt signProt aad payload : List Nat) : List Nat :=
  [bodyProt.length % 256] ++ bodyProt ++
  [signProt.length % 256] ++ signProt ++
  [aad.length % 256] ++ aad ++ payload

/-- Modelled from the spec: create_tbs_hash (t_cose_util), hashing the
Sig_structure with the algorithm's hash; fails for an unsupported hash. -/
def create_tbs_hash (alg : Int) (bodyProt signProt aad payload : List Nat) :
    Except t_cose_err_t (List Nat) :=
  if t_cose_hash_size alg = 0 then .error .T_COSE_ERR_UNSUPPORTED_HASH
  else .ok (model_hash (t_cose_hash_size alg) (tbs_bytes bodyProt signProt aad payload))

/-- Model of struct t_cose_key; for the short-circuit path only the NULL key
is used; for the ECDSA model the field selects the key pair. -/
structure t_cose_key where
  k : Nat
  deriving DecidableEq

/-- The NULL key handle. -/
def T_COSE_NULL_KEY : t_cose_key := ⟨0⟩

/-- Modelled from the spec: deterministic model of the ECDSA ES256 sign
primitive: a 64-byte signature determined by the key and the digest. -/
def ecdsa_sign (key : t_cose_key) (hash : List Nat) : List Nat :=
  model_hash 64 (key.k % 256 :: hash)

/-- Modelled from the spec: t_cose_crypto_verify of the crypto adapter.
For a short-circuit algorithm it is a bytewise compare of the signature
against the digest; for ES256 it checks the deterministic ECDSA model. -/
def t_cose_crypto_verify (alg : Int) (key : t_cose_key) (kid : UsefulBufC)
    (hash sig : List Nat) : t_cose_err_t :=
  if t_cose_algorithm_is_short_circuit alg then
    if sig = hash then .T_COSE_SUCCESS else .T_COSE_ERR_SIG_VERIFY_FAIL
  else if alg = T_COSE_ALGORITHM_ES256 then
    if sig = ecdsa_sign key hash then .T_COSE_SUCCESS else .T_COSE_ERR_SIG_VERIFY_FAIL
  else
    .T_COSE_ERR_UNSUPPORTED_SIGNING_ALG

/-- Operations the embedded verify callbacks can perform, recorded in
execution order as a trace. -/
inductive VerifyStep where
  | find_alg
  | kid_compare
  | tbs_hash
  | crypto_verify_step
  | enter_array
  | headers_decode_step
  | get_byte_string
  | exit_array
  | get_error_check
  deriving DecidableEq

/-- Embedding of t_cose_signature_verify1_short from
t_cose_signature_verify_short.c lines 28-88.  Returns the error code paired
with the trace of operations performed, in source order: find the alg id and
check it is short-circuit; find the kid and compare against the fixed
short-circuit kid; honor DECODE_ONLY; hash the TBS; verify bytewise. -/
def t_cose_signature_verify1_short
    (option_flags : Nat)
    (protected_body_headers protected_signature_headers payload aad : List Nat)
    (body_parameters : List t_cose_parameter)
    (signature : List Nat) : t_cose_err_t × List VerifyStep :=
  let cose_algorithm_id := t_cose_find_parameter_alg_id body_parameters
  if ¬ t_cose_algorithm_is_short_circuit cose_algorithm_id then
    (.T_COSE_ERR_UNSUPPORTED_SIGNING_ALG, [.find_alg])
  else
    let kid := t_cose_find_parameter_kid body_parameters
    if q_useful_buf_compare kid get_short_circuit_kid ≠ 0 then
      (.T_COSE_ERR_KID_UNMATCHED, [.find_alg, .kid_compare])
    else if option_flags &&& T_COSE_OPT_DECODE_ONLY ≠ 0 then
      (.T_COSE_SUCCESS, [.find_alg, .kid_compare])
    else
      match create_tbs_hash cose_algorithm_id protected_body_headers
              protected_signature_headers aad payload with
      | .error e => (e, [.find_alg, .kid_compare, .tbs_hash])
      | .ok h =>
          (t_cose_crypto_verify cose_algorithm_id T_COSE_NULL_KEY kid h signature,
           [.find_alg, .kid_compare, .tbs_hash, .crypto_verify_step])

/-- QCBOR decoder error states; the decoder accumulates the first error and
later operations become no-ops (the spiffy-decode discipline). -/
inductive QCBORError where
  | QCBOR_SUCCESS
  | QCBOR_ERR_UNEXPECTED_TYPE
  | QCBOR_ERR_HIT_END
  | QCBOR_ERR_NOT_WELL_FORMED
  deriving DecidableEq

/-- Items of the decoder's input stream, at the granularity the verify
callback touches them.  The pair of protected/unprotected header items a
COSE_Signature starts with is a single stream item carrying the outcome
t_cose_headers_decode produces for it, since the header decoder itself is
outside the embedded sources. -/
inductive CborItem where
  | array_open
  | array_close
  | header_items (outcome : Except t_cose_err_t (List t_cose_parameter × List Nat))
  | byte_string (b : List Nat)

/-- Model of QCBORDecodeContext: remaining input items plus the accumulated
error. -/
structure QCBORDecodeContext where
  items : List CborItem
  uLastError : QCBORError

/-- Model of QCBORDecode_EnterArray: consume an array opening, or record an
error; a no-op when an error is already recorded. -/
def QCBORDecode_EnterArray (ctx : QCBORDecodeContext) : QCBORDecodeContext :=
  if ctx.uLastError ≠ .QCBOR_SUCCESS then ctx else
  match ctx.items with
  | .array_open :: rest => { items := rest, uLastError := .QCBOR_SUCCESS }
  | [] => { ctx with uLastError := .QCBOR_ERR_HIT_END }
  | _ => { ctx with uLastError := .QCBOR_ERR_UNEXPECTED_TYPE }

/-- Model of QCBORDecode_GetByteString: consume a byte string item and
return its bytes, or record an error; a no-op when an error is already
recorded. -/
def QCBORDecode_GetByteString (ctx : QCBORDecodeContext) :
    QCBORDecodeContext × List Nat :=
  if ctx.uLastError ≠ .QCBOR_SUCCESS then (ctx, []) else
  match ctx.items with
  | .byte_string b :: rest => ({ items := rest, uLastError := .QCBOR_SUCCESS }, b)
  | [] => ({ ctx with uLastError := .QCBOR_ERR_HIT_END }, [])
  | _ => ({ ctx with uLastError := .QCBOR_ERR_UNEXPECTED_TYPE }, [])

/-- Model of QCBORDecode_ExitArray: consume the array closing, or record an
error; a no-op when an error is already recorded. -/
def QCBORDecode_ExitArray (ctx : QCBORDecodeContext) : QCBORDecodeContext :=
  if ctx.uLastError ≠ .QCBOR_SUCCESS then ctx else
  match ctx.items with
  | .array_close :: rest => { items := rest, uLastError := .QCBOR_SUCCESS }
  | [] => { ctx with uLastError := .QCBOR_ERR_HIT_END }
  | _ => { ctx with uLastError := .QCBOR_ERR_UNEXPECTED_TYPE }

/-- Model of QCBORDecode_GetError: report the accumulated error. -/
def QCBORDecode_GetError (ctx : QCBORDecodeContext) : QCBORError :=
  ctx.uLastError

/-- Modelled from the spec: t_cose_headers_decode (t_cose_parameters),
consuming the protected and unprotected header items of a COSE_Signature
and yielding the decoded parameter list together with the still-serialized
protected-headers byte string, or a t_cose error. -/
def t_cose_headers_decode (ctx : QCBORDecodeContext) :
    QCBORDecodeContext × Except t_cose_err_t (List t_cose_parameter × List Nat) :=
  if ctx.uLastError ≠ .QCBOR_SUCCESS then
    (ctx, .error .T_COSE_ERR_CBOR_NOT_WELL_FORMED)
  else
  match ctx.items with
  | .header_items outcome :: rest =>
      ({ items := rest, uLastError := .QCBOR_SUCCESS }, outcome)
  | _ =>
      ({ ctx with uLastError := .QCBOR_ERR_UNEXPECTED_TYPE },
       .error .T_COSE_ERR_SIGN1_FORMAT)

/-- Modelled from the spec: qcbor_decode_error_to_t_cose_error
(t_cose_util): maps the accumulated CBOR error to a t_cose structure error,
using the supplied format error for the generic case. -/
def qcbor_decode_error_to_t_cose_error (e : QCBORError)
    (format_error : t_cose_err_t) : t_cose_err_t :=
  match e with
  | .QCBOR_SUCCESS => .T_COSE_SUCCESS
  | .QCBOR_ERR_NOT_WELL_FORMED => .T_COSE_ERR_CBOR_NOT_WELL_FORMED
  | _ => format_error

/-- Embedding of t_cose_signature_verify_short from
t_cose_signature_verify_short.c lines 99-154.  Enter the COSE_Signature
array, decode its headers (any error returned unchanged, skipping the
rest), read the signature byte string, exit the array, check and convert the
accumulated CBOR error, then hand off to the verify1 callback.  Returns the
error code, the trace of operations in source order, and the final decoder
state. -/
def t_cose_signature_verify_short
    (option_flags : Nat)
    (protected_body_headers payload aad : List Nat)
    (qcbor_decoder : QCBORDecodeContext) :
    t_cose_err_t × List VerifyStep × QCBORDecodeContext :=
  let d1 := QCBORDecode_EnterArray qcbor_decoder
  let hd := t_cose_headers_decode d1
  match hd.2 with
  | .error e => (e, [.enter_array, .headers_decode_step], hd.1)
  | .ok pp =>
      let gbs := QCBORDecode_GetByteString hd.1
      let d3 := QCBORDecode_ExitArray gbs.1
      let qcbor_error := QCBORDecode_GetError d3
      if qcbor_error ≠ .QCBOR_SUCCESS then
        (qcbor_decode_error_to_t_cose_error qcbor_error .T_COSE_ERR_SIGN1_FORMAT,
         [.enter_array, .headers_decode_step, .get_byte_string, .exit_array,
          .get_error_check], d3)
      else
        let v := t_cose_signature_verify1_short option_flags
                   protected_body_headers pp.2 payload aad pp.1 gbs.2
        (v.1,
         [.enter_array, .headers_decode_step, .get_byte_string, .exit_array,
          .get_error_check] ++ v.2, d3)

/-- Model of a C function pointer: a named address or NULL; memset writes
NULL into pointer fields. -/
inductive FuncPtr where
  | null_ptr
  | verify_short_ptr
  | verify1_short_ptr
  | other_ptr (n : Nat)
  deriving DecidableEq

/-- Model of struct t_cose_signature_verify, the abstract base with the two
vtable slots and the chain link, mirroring t_cose_signature_sign of
t_cose_signature_sign.h. -/
structure t_cose_signature_verify_s where
  callback : FuncPtr
  callback1 : FuncPtr
  next_in_list : FuncPtr
  deriving DecidableEq

/-- Model of struct t_cose_signature_verify_short (the context the verify
callbacks of t_cose_signature_verify_short.c work on): the base part plus
the custom reader callback and its context. -/
structure t_cose_signature_verify_short_ctx where
  s : t_cose_signature_verify_s
  reader : FuncPtr
  reader_ctx : FuncPtr
  deriving DecidableEq

/-- The context with all bytes zero, the result of memset(me, 0, sizeof). -/
def verify_short_ctx_zeroed : t_cose_signature_verify_short_ctx :=
  { s := { callback := .null_ptr, callback1 := .null_ptr, next_in_list := .null_ptr },
    reader := .null_ptr, reader_ctx := .null_ptr }

/-- Embedding of t_cose_signature_verify_short_init from
t_cose_signature_verify_short.c lines 157-163: memset the context to zero
then install the two vtable slots. -/
def t_cose_signature_verify_short_init : t_cose_signature_verify_short_ctx :=
  let me := verify_short_ctx_zeroed
  { me with s := { me.s with callback := .verify_short_ptr,
                             callback1 := .verify1_short_ptr } }

/-- Byte length of the CBOR head for a byte string of length n. -/
def cbor_bstr_head_len (n : Nat) : Nat :=
  if n < 24 then 1 else if n < 256 then 2 else if n < 65536 then 3 else 5

/-- The CBOR head bytes for a byte string of length n (major type 2). -/
def cbor_bstr_head (n : Nat) : List Nat :=
  if n < 24 then [0x40 + n]
  else if n < 256 then [0x58, n]
  else if n < 65536 then [0x59, n / 256, n % 256]
  else [0x5a, n / 16777216 % 256, n / 65536 % 256, n / 256 % 256, n % 256]

/-- Model of QCBOREncodeContext: whether the output buffer is NULL (size
calculation mode), the byte count accumulated so far, and the bytes actually
emitted (meaningful only in real mode). -/
structure QCBOREncodeContext where
  size_only : Bool
  count : Nat
  out : List Nat

/-- Model of QCBOREncode_AddBytes: append a byte string item; the count
advances in both modes, bytes are emitted only in real mode. -/
def QCBOREncode_AddBytes (enc : QCBOREncodeContext) (b : List Nat) :
    QCBOREncodeContext :=
  if enc.size_only then
    { enc with count := enc.count + cbor_bstr_head_len b.length + b.length }
  else
    { enc with count := enc.count + cbor_bstr_head_len b.length + b.length,
               out := enc.out ++ cbor_bstr_head b.length ++ b }

/-- Model of adding a byte string of known length without its bytes, as done
in size calculation mode from a sig_size result. -/
def QCBOREncode_AddBytesLen (enc : QCBOREncodeContext) (n : Nat) :
    QCBOREncodeContext :=
  { enc with count := enc.count + cbor_bstr_head_len n + n }

/-- Modelled from the spec: t_cose_crypto_sig_size of the crypto adapter for
the short-circuit pseudo-algorithms, whose signature is the TBS digest. -/
def t_cose_crypto_sig_size (alg : Int) : Nat :=
  t_cose_hash_size alg

/-- Modelled from the spec: the sign callback of the short-circuit signer,
following the contract of t_cose_signature_sign_callback
(t_cose_signature_sign.h lines 92-124): when the encoder's output buffer is
NULL it only adds the size obtained from sig_size; otherwise it computes the
TBS digest and emits it as the signature byte string. -/
def t_cose_signature_sign_short_cb (alg : Int)
    (protected_body_headers aad payload : List Nat)
    (enc : QCBOREncodeContext) : t_cose_err_t × QCBOREncodeContext :=
  if ¬ t_cose_algorithm_is_short_circuit alg then
    (.T_COSE_ERR_UNSUPPORTED_SIGNING_ALG, enc)
  else if enc.size_only then
    (.T_COSE_SUCCESS, QCBOREncode_AddBytesLen enc (t_cose_crypto_sig_size alg))
  else
    match create_tbs_hash alg protected_body_headers [] aad payload with
    | .error e => (e, enc)
    | .ok h => (.T_COSE_SUCCESS, QCBOREncode_AddBytes enc h)

/-- Model of a concrete signer's mutable instance context: a stored error
(the place t_cose_signature_sign.h lines 137-142 tells header callbacks to
record errors) and the header contributions. -/
structure ModelSignerState where
  stored_error : t_cose_err_t
  params : List t_cose_parameter
  deriving DecidableEq

/-- Model of struct t_cose_signature_sign (t_cose_signature_sign.h lines
151-160): the instance state and the two vtable entries.  The header
callback's type returns its contributions and updated state only: like the C
typedef returning void, it has no error channel. -/
structure ModelSigner where
  state : ModelSignerState
  h_callback : ModelSignerState → List t_cose_parameter × ModelSignerState
  sign_callback : ModelSignerState → List Nat → List Nat → List Nat →
                  t_cose_err_t × List Nat

/-- Events of the COSE_Sign1 signing pipeline, recorded in order. -/
inductive SignEvent where
  | h_call
  | body_emit
  | sign_call
  deriving DecidableEq

/-- Model encoding of a parameter into bytes, for the protected bucket. -/
def encode_param (p : t_cose_parameter) : List Nat :=
  (Int.natAbs p.label % 256) ::
  (match p.value with
   | .int_val i => [0, Int.natAbs i % 256]
   | .bstr_val b => 1 :: b
   | .tstr_val s => 2 :: (s.toList.map Char.toNat)
   | .bool_val b => [3, if b then 1 else 0])

/-- Model encoding of the protected-headers byte string. -/
def encode_protected (ps : List t_cose_parameter) : List Nat :=
  (ps.length % 256) :: (ps.map encode_param).flatten

/-- Modelled from the spec: the COSE_Sign1 signing pipeline of 4.5, at the
granularity the signer contract fixes: step 1 collects the signer's header
contributions through the header callback (whose type has no error channel),
steps 2-7 merge and emit body headers and payload, step 8 invokes the sign
callback on the state left by the header callback.  Returns the sign
callback's error and signature bytes, with the event trace. -/
def t_cose_sign1_pipeline (s : ModelSigner)
    (body_params : List t_cose_parameter) (payload aad : List Nat) :
    (t_cose_err_t × List Nat) × List SignEvent :=
  let hc := s.h_callback s.state
  let merged := body_params ++ hc.1
  let prot := encode_protected merged
  let sr := s.sign_callback hc.2 prot aad payload
  ((sr.1, sr.2), [.h_call, .body_emit, .sign_call])

/-- Model of a COSE_Sign1 message after structural decoding: the serialized
protected headers, the payload, and the signature bytes. -/
structure COSE_Sign1 where
  body_protected : List Nat
  payload : List Nat
  signature : List Nat
  deriving DecidableEq

/-- The fixed serialized protected headers t_cose_mini_sign emits: the map
from label 1 (alg) to ES256 (-7), as the bytes a1 01 26. -/
def mini_sign_protected_headers : List Nat := [0xa1, 0x01, 0x26]

/-- Modelled from the spec: t_cose_mini_sign, the austere ES256 signer: it
emits the fixed protected headers, the payload, and an ECDSA signature over
the TBS hash with empty aad. -/
def t_cose_mini_sign (payload : List Nat) (key : t_cose_key) : COSE_Sign1 :=
  let h := model_hash 32 (tbs_bytes mini_sign_protected_headers [] [] payload)
  { body_protected := mini_sign_protected_headers,
    payload := payload,
    signature := ecdsa_sign key h }

/-- Modelled from the spec: the minimal protected-header parse of the
verification path, recovering the alg id from the serialized map. -/
def parse_protected_alg (b : List Nat) : Option Int :=
  if b = mini_sign_protected_headers then some T_COSE_ALGORITHM_ES256 else none

/-- Modelled from the spec: t_cose_sign1_verify with a verification key set:
parse the protected headers to find the alg, recompute the TBS hash with
empty aad, check the signature with the crypto adapter, and return the
payload on success. -/
def t_cose_sign1_verify (msg : COSE_Sign1) (key : t_cose_key) :
    Except t_cose_err_t (List Nat) :=
  match parse_protected_alg msg.body_protected with
  | none => .error .T_COSE_ERR_NO_ALG_SPECIFIED
  | some alg =>
      match create_tbs_hash alg msg.body_protected [] [] msg.payload with
      | .error e => .error e
      | .ok h =>
          match t_cose_crypto_verify alg key [] h msg.signature with
          | .T_COSE_SUCCESS => .ok msg.payload
          | e => .error e

/-- The 512-byte payload of t_cose_austere_test.c: 00 01 02 03 repeated 128
times. -/
def austere_payload : List Nat := (List.replicate 128 [0, 1, 2, 3]).flatten

/-- Helper: the modelled digest always has the requested length. -/
theorem model_hash_length (n : Nat) (d : List Nat) : (model_hash n d).length = n := by
  simp [model_hash]

/-- Helper: the CBOR byte-string head has the length the size computation
assumes. -/
theorem cbor_bstr_head_length (n : Nat) :
    (cbor_bstr_head n).length = cbor_bstr_head_len n := by
  unfold cbor_bstr_head cbor_bstr_head_len
  split_ifs <;> simp

/-- Helper: short-circuit algorithm ids have a nonzero hash size. -/
theorem short_circuit_hash_size_ne_zero (a : Int)
    (h : t_cose_algorithm_is_short_circuit a = true) : t_cose_hash_size a ≠ 0 := by
  simp [t_cose_algorithm_is_short_circuit] at h
  rcases h with (h | h) | h <;> subst h <;> decide

/-- C10: after t_cose_signature_verify_short_init returns, the two vtable
slots hold t_cose_signature_verify_short and t_cose_signature_verify1_short,
and every other field of the context is still zero from the memset: the
custom reader, its context, and the chain link are null. -/
theorem t_cose_signature_verify_short_init_installs_vtable :
    t_cose_signature_verify_short_init.s.callback = .verify_short_ptr ∧
    t_cose_signature_verify_short_init.s.callback1 = .verify1_short_ptr ∧
    t_cose_signature_verify_short_init.reader = .null_ptr ∧
    t_cose_signature_verify_short_init.reader_ctx = .null_ptr ∧
    t_cose_signature_verify_short_init.s.next_in_list = .null_ptr :=
  ⟨rfl, rfl, rfl, rfl, rfl⟩

/-- C1: round trip: for every payload and key, verifying the message
produced by the ES256 mini signer succeeds and yields the input payload; in
particular for the 512-byte payload of the austere test. -/
theorem mini_sign_round_trip :
    (∀ (payload : List Nat) (key : t_cose_key),
        t_cose_sign1_verify (t_cose_mini_sign payload key) key = .ok payload) ∧
    t_cose_sign1_verify (t_cose_mini_sign austere_payload ⟨7⟩) ⟨7⟩ =
      .ok austere_payload := by
  have h : ∀ (payload : List Nat) (key : t_cose_key),
      t_cose_sign1_verify (t_cose_mini_sign payload key) key = .ok payload := by
    intro payload key
    simp [t_cose_sign1_verify, t_cose_mini_sign, parse_protected_alg,
          create_tbs_hash, t_cose_hash_size, t_cose_crypto_verify,
          t_cose_algorithm_is_short_circuit, T_COSE_ALGORITHM_ES256,
          T_COSE_ALGORITHM_SHORT_CIRCUIT_256, T_COSE_ALGORITHM_SHORT_CIRCUIT_384,
          T_COSE_ALGORITHM_SHORT_CIRCUIT_512]
  exact ⟨h, h austere_payload ⟨7⟩⟩

/-- C9: the header callback's type has no error channel, so header
collection by itself never aborts the COSE_Sign1 pipeline: the pipeline's
outcome is exactly what the sign callback returns on the state the header
callback left behind, and the sign callback is always called. -/
theorem sign1_pipeline_header_callback_cannot_fail (s : ModelSigner)
    (body_params : List t_cose_parameter) (payload aad : List Nat) :
    SignEvent.sign_call ∈ (t_cose_sign1_pipeline s body_params payload aad).2 ∧
    (t_cose_sign1_pipeline s body_params payload aad).1.1 =
      (s.sign_callback (s.h_callback s.state).2
        (encode_protected (body_params ++ (s.h_callback s.state).1)) aad payload).1 := by
  constructor
  · simp [t_cose_sign1_pipeline]
  · rfl

/-- C4: when the alg parameter found in the body parameters is not a
short-circuit algorithm, the verify1 callback returns
UNSUPPORTED_SIGNING_ALG immediately: its trace holds only the alg lookup,
with no kid comparison, no TBS hash, and no signature verification. -/
theorem verify1_short_unsupported_alg (flags : Nat)
    (bp sp payload aad sig : List Nat) (params : List t_cose_parameter)
    (halg : t_cose_algorithm_is_short_circuit
              (t_cose_find_parameter_alg_id params) = false) :
    (t_cose_signature_verify1_short flags bp sp payload aad params sig).1 =
      .T_COSE_ERR_UNSUPPORTED_SIGNING_ALG ∧
    (t_cose_signature_verify1_short flags bp sp payload aad params sig).2 =
      [.find_alg] ∧
    VerifyStep.kid_compare ∉
      (t_cose_signature_verify1_short flags bp sp payload aad params sig).2 ∧
    VerifyStep.tbs_hash ∉
      (t_cose_signature_verify1_short flags bp sp payload aad params sig).2 ∧
    VerifyStep.crypto_verify_step ∉
      (t_cose_signature_verify1_short flags bp sp payload aad params sig).2 := by
  simp [t_cose_signature_verify1_short, halg]

/-- Witness for C4 at a concrete input: parameters carrying ES256 as alg. -/
theorem verify1_short_unsupported_alg_witness :
    t_cose_algorithm_is_short_circuit
      (t_cose_find_parameter_alg_id [⟨1, true, .int_val (-7)⟩]) = false ∧
    ((t_cose_signature_verify1_short 0 [] [] [] [] [⟨1, true, .int_val (-7)⟩] []).1 =
       .T_COSE_ERR_UNSUPPORTED_SIGNING_ALG ∧
     (t_cose_signature_verify1_short 0 [] [] [] [] [⟨1, true, .int_val (-7)⟩] []).2 =
       [.find_alg] ∧
     VerifyStep.kid_compare ∉
       (t_cose_signature_verify1_short 0 [] [] [] [] [⟨1, true, .int_val (-7)⟩] []).2 ∧
     VerifyStep.tbs_hash ∉
       (t_cose_signature_verify1_short 0 [] [] [] [] [⟨1, true, .int_val (-7)⟩] []).2 ∧
     VerifyStep.crypto_verify_step ∉
       (t_cose_signature_verify1_short 0 [] [] [] [] [⟨1, true, .int_val (-7)⟩] []).2) :=
  ⟨by decide, verify1_short_unsupported_alg 0 [] [] [] [] [] _ (by decide)⟩

/-- C5: during short-circuit verification (the alg check has passed), a kid
parameter that differs bytewise from the fixed short-circuit kid makes the
verify1 callback fail with KID_UNMATCHED, with no TBS hash computed and no
signature verification performed. -/
theorem verify1_short_kid_unmatched (flags : Nat)
    (bp sp payload aad sig : List Nat) (params : List t_cose_parameter)
    (halg : t_cose_algorithm_is_short_circuit
              (t_cose_find_parameter_alg_id params) = true)
    (hkid : t_cose_find_parameter_kid params ≠ get_short_circuit_kid) :
    (t_cose_signature_verify1_short flags bp sp payload aad params sig).1 =
      .T_COSE_ERR_KID_UNMATCHED ∧
    (t_cose_signature_verify1_short flags bp sp payload aad params sig).2 =
      [.find_alg, .kid_compare] ∧
    VerifyStep.tbs_hash ∉
      (t_cose_signature_verify1_short flags bp sp payload aad params sig).2 ∧
    VerifyStep.crypto_verify_step ∉
      (t_cose_signature_verify1_short flags bp sp payload aad params sig).2 := by
  simp [t_cose_signature_verify1_short, halg, q_useful_buf_compare, hkid]

/-- Witness for C5 at a concrete input: a short-circuit alg with a one-byte
kid different from the fixed short-circuit kid. -/
theorem verify1_short_kid_unmatched_witness :
    t_cose_algorithm_is_short_circuit
      (t_cose_find_parameter_alg_id
        [⟨1, true, .int_val (-1000256)⟩, ⟨4, false, .bstr_val [1]⟩]) = true ∧
    t_cose_find_parameter_kid
      [⟨1, true, .int_val (-1000256)⟩, ⟨4, false, .bstr_val [1]⟩] ≠
      get_short_circuit_kid ∧
    ((t_cose_signature_verify1_short 0 [] [] [] []
        [⟨1, true, .int_val (-1000256)⟩, ⟨4, false, .bstr_val [1]⟩] []).1 =
       .T_COSE_ERR_KID_UNMATCHED ∧
     (t_cose_signature_verify1_short 0 [] [] [] []
        [⟨1, true, .int_val (-1000256)⟩, ⟨4, false, .bstr_val [1]⟩] []).2 =
       [.find_alg, .kid_compare] ∧
     VerifyStep.tbs_hash ∉
       (t_cose_signature_verify1_short 0 [] [] [] []
          [⟨1, true, .int_val (-1000256)⟩, ⟨4, false, .bstr_val [1]⟩] []).2 ∧
     VerifyStep.crypto_verify_step ∉
       (t_cose_signature_verify1_short 0 [] [] [] []
          [⟨1, true, .int_val (-1000256)⟩, ⟨4, false, .bstr_val [1]⟩] []).2) :=
  ⟨by decide, by decide,
   verify1_short_kid_unmatched 0 [] [] [] [] [] _ (by decide) (by decide)⟩

/-- C3: with the DECODE_ONLY option flag set, the verify1 callback never
computes a TBS hash and never performs a signature comparison, and once the
header checks pass (short-circuit alg, matching kid) it returns success. -/
theorem verify1_short_decode_only (flags : Nat)
    (bp sp payload aad sig : List Nat) (params : List t_cose_parameter)
    (hflag : flags &&& T_COSE_OPT_DECODE_ONLY ≠ 0) :
    VerifyStep.tbs_hash ∉
      (t_cose_signature_verify1_short flags bp sp payload aad params sig).2 ∧
    VerifyStep.crypto_verify_step ∉
      (t_cose_signature_verify1_short flags bp sp payload aad params sig).2 ∧
    (t_cose_algorithm_is_short_circuit
       (t_cose_find_parameter_alg_id params) = true →
     t_cose_find_parameter_kid params = get_short_circuit_kid →
     (t_cose_signature_verify1_short flags bp sp payload aad params sig).1 =
       .T_COSE_SUCCESS) := by
  by_cases halg : t_cose_algorithm_is_short_circuit
      (t_cose_find_parameter_alg_id params) = true
  · by_cases hkid : t_cose_find_parameter_kid params = get_short_circuit_kid
    · simp [t_cose_signature_verify1_short, halg, q_useful_buf_compare, hkid, hflag]
    · simp [t_cose_signature_verify1_short, halg, q_useful_buf_compare, hkid]
  · simp [t_cose_signature_verify1_short, halg]

/-- Witness for C3 at a concrete input: DECODE_ONLY set, short-circuit alg,
matching kid. -/
theorem verify1_short_decode_only_witness :
    (8 &&& T_COSE_OPT_DECODE_ONLY ≠ 0) ∧
    (VerifyStep.tbs_hash ∉
       (t_cose_signature_verify1_short 8 [] [] [] []
          [⟨1, true, .int_val (-1000256)⟩, ⟨4, false, .bstr_val get_short_circuit_kid⟩]
          []).2 ∧
     VerifyStep.crypto_verify_step ∉
       (t_cose_signature_verify1_short 8 [] [] [] []
          [⟨1, true, .int_val (-1000256)⟩, ⟨4, false, .bstr_val get_short_circuit_kid⟩]
          []).2 ∧
     (t_cose_algorithm_is_short_circuit
        (t_cose_find_parameter_alg_id
          [⟨1, true, .int_val (-1000256)⟩, ⟨4, false, .bstr_val get_short_circuit_kid⟩]) = true →
      t_cose_find_parameter_kid
        [⟨1, true, .int_val (-1000256)⟩, ⟨4, false, .bstr_val get_short_circuit_kid⟩] =
        get_short_circuit_kid →
      (t_cose_signature_verify1_short 8 [] [] [] []
         [⟨1, true, .int_val (-1000256)⟩, ⟨4, false, .bstr_val get_short_circuit_kid⟩]
         []).1 = .T_COSE_SUCCESS)) :=
  ⟨by decide, verify1_short_decode_only 8 [] [] [] [] [] _ (by decide)⟩

/-- C2: in short-circuit mode proper (DECODE_ONLY clear, short-circuit alg,
matching kid), the verify1 callback computes the TBS hash and compares the
signature bytewise against it: it returns SUCCESS exactly when the signature
equals the TBS hash and SIG_VERIFY_FAIL otherwise. -/
theorem verify1_short_bytewise (flags : Nat)
    (bp sp payload aad sig : List Nat) (params : List t_cose_parameter)
    (halg : t_cose_algorithm_is_short_circuit
              (t_cose_find_parameter_alg_id params) = true)
    (hkid : t_cose_find_parameter_kid params = get_short_circuit_kid)
    (hflag : flags &&& T_COSE_OPT_DECODE_ONLY = 0) :
    ((t_cose_signature_verify1_short flags bp sp payload aad params sig).1 =
        .T_COSE_SUCCESS ↔
      sig = model_hash (t_cose_hash_size (t_cose_find_parameter_alg_id params))
              (tbs_bytes bp sp aad payload)) ∧
    (sig ≠ model_hash (t_cose_hash_size (t_cose_find_parameter_alg_id params))
            (tbs_bytes bp sp aad payload) →
     (t_cose_signature_verify1_short flags bp sp payload aad params sig).1 =
       .T_COSE_ERR_SIG_VERIFY_FAIL) := by
  have hsz := short_circuit_hash_size_ne_zero _ halg
  by_cases hs : sig = model_hash (t_cose_hash_size (t_cose_find_parameter_alg_id params))
      (tbs_bytes bp sp aad payload)
  · simp [t_cose_signature_verify1_short, halg, q_useful_buf_compare, hkid,
          hflag, create_tbs_hash, hsz, t_cose_crypto_verify, hs]
  · simp [t_cose_signature_verify1_short, halg, q_useful_buf_compare, hkid,
          hflag, create_tbs_hash, hsz, t_cose_crypto_verify, hs]

/-- Witness for C2 at a concrete input: short-circuit alg and kid, flags 0,
with the signature being the TBS hash of the empty inputs. -/
theorem verify1_short_bytewise_witness :
    t_cose_algorithm_is_short_circuit
      (t_cose_find_parameter_alg_id
        [⟨1, true, .int_val (-1000256)⟩, ⟨4, false, .bstr_val get_short_circuit_kid⟩]) = true ∧
    t_cose_find_parameter_kid
      [⟨1, true, .int_val (-1000256)⟩, ⟨4, false, .bstr_val get_short_circuit_kid⟩] =
      get_short_circuit_kid ∧
    (0 &&& T_COSE_OPT_DECODE_ONLY = 0) ∧
    (((t_cose_signature_verify1_short 0 [] [] [] []
         [⟨1, true, .int_val (-1000256)⟩, ⟨4, false, .bstr_val get_short_circuit_kid⟩]
         (model_hash 32 (tbs_bytes [] [] [] []))).1 = .T_COSE_SUCCESS ↔
       model_hash 32 (tbs_bytes [] [] [] []) =
         model_hash (t_cose_hash_size (t_cose_find_parameter_alg_id
             [⟨1, true, .int_val (-1000256)⟩, ⟨4, false, .bstr_val get_short_circuit_kid⟩]))
           (tbs_bytes [] [] [] [])) ∧
     (model_hash 32 (tbs_bytes [] [] [] []) ≠
        model_hash (t_cose_hash_size (t_cose_find_parameter_alg_id
            [⟨1, true, .int_val (-1000256)⟩, ⟨4, false, .bstr_val get_short_circuit_kid⟩]))
          (tbs_bytes [] [] [] []) →
      (t_cose_signature_verify1_short 0 [] [] [] []
         [⟨1, true, .int_val (-1000256)⟩, ⟨4, false, .bstr_val get_short_circuit_kid⟩]
         (model_hash 32 (tbs_bytes [] [] [] []))).1 = .T_COSE_ERR_SIG_VERIFY_FAIL)) :=
  ⟨by decide, by decide, by decide,
   verify1_short_bytewise 0 [] [] [] [] (model_hash 32 (tbs_bytes [] [] [] [])) _
     (by decide) (by decide) (by decide)⟩

/-- C6: first error wins in the COSE_Signature verify callback: when header
decoding fails, the error is returned unchanged, the decoder is not advanced
further, and the signature read, the array exit, the decoder error check and
the verification are all skipped. -/
theorem verify_short_first_error_wins (flags : Nat)
    (bp payload aad : List Nat) (ctx : QCBORDecodeContext) (e : t_cose_err_t)
    (hhd : (t_cose_headers_decode (QCBORDecode_EnterArray ctx)).2 = .error e) :
    (t_cose_signature_verify_short flags bp payload aad ctx).1 = e ∧
    (t_cose_signature_verify_short flags bp payload aad ctx).2.1 =
      [.enter_array, .headers_decode_step] ∧
    (t_cose_signature_verify_short flags bp payload aad ctx).2.2 =
      (t_cose_headers_decode (QCBORDecode_EnterArray ctx)).1 ∧
    VerifyStep.get_byte_string ∉
      (t_cose_signature_verify_short flags bp payload aad ctx).2.1 ∧
    VerifyStep.exit_array ∉
      (t_cose_signature_verify_short flags bp payload aad ctx).2.1 ∧
    VerifyStep.crypto_verify_step ∉
      (t_cose_signature_verify_short flags bp payload aad ctx).2.1 := by
  simp [t_cose_signature_verify_short, hhd]

/-- Witness for C6 at a concrete input: a COSE_Signature whose header items
decode to a DUPLICATE_PARAMETER error. -/
theorem verify_short_first_error_wins_witness :
    (t_cose_headers_decode (QCBORDecode_EnterArray
       ⟨[.array_open, .header_items (.error .T_COSE_ERR_DUPLICATE_PARAMETER)],
        .QCBOR_SUCCESS⟩)).2 = .error .T_COSE_ERR_DUPLICATE_PARAMETER ∧
    ((t_cose_signature_verify_short 0 [] [] []
        ⟨[.array_open, .header_items (.error .T_COSE_ERR_DUPLICATE_PARAMETER)],
         .QCBOR_SUCCESS⟩).1 = .T_COSE_ERR_DUPLICATE_PARAMETER ∧
     (t_cose_signature_verify_short 0 [] [] []
        ⟨[.array_open, .header_items (.error .T_COSE_ERR_DUPLICATE_PARAMETER)],
         .QCBOR_SUCCESS⟩).2.1 = [.enter_array, .headers_decode_step] ∧
     (t_cose_signature_verify_short 0 [] [] []
        ⟨[.array_open, .header_items (.error .T_COSE_ERR_DUPLICATE_PARAMETER)],
         .QCBOR_SUCCESS⟩).2.2 =
       (t_cose_headers_decode (QCBORDecode_EnterArray
          ⟨[.array_open, .header_items (.error .T_COSE_ERR_DUPLICATE_PARAMETER)],
           .QCBOR_SUCCESS⟩)).1 ∧
     VerifyStep.get_byte_string ∉
       (t_cose_signature_verify_short 0 [] [] []
          ⟨[.array_open, .header_items (.error .T_COSE_ERR_DUPLICATE_PARAMETER)],
           .QCBOR_SUCCESS⟩).2.1 ∧
     VerifyStep.exit_array ∉
       (t_cose_signature_verify_short 0 [] [] []
          ⟨[.array_open, .header_items (.error .T_COSE_ERR_DUPLICATE_PARAMETER)],
           .QCBOR_SUCCESS⟩).2.1 ∧
     VerifyStep.crypto_verify_step ∉
       (t_cose_signature_verify_short 0 [] [] []
          ⟨[.array_open, .header_items (.error .T_COSE_ERR_DUPLICATE_PARAMETER)],
           .QCBOR_SUCCESS⟩).2.1) :=
  ⟨rfl, verify_short_first_error_wins 0 [] [] [] _ _ rfl⟩

/-- C7: the verify callback consumes exactly one COSE_Signature: on a
well-formed stream it removes exactly the array opening, the header items,
the signature byte string and the array closing, performing those operations
once each in order before handing the decoded pieces to the verify1
callback; and whenever the accumulated CBOR error at the post-decode check
is not success it is converted with the SIGN1_FORMAT format error and no
verification is attempted. -/
theorem verify_short_consumes_one (flags : Nat) (bp payload aad : List Nat)
    (ps : List t_cose_parameter) (prot sig : List Nat) (rest : List CborItem) :
    (let ctx : QCBORDecodeContext :=
       ⟨.array_open :: .header_items (.ok (ps, prot)) :: .byte_string sig ::
          .array_close :: rest, .QCBOR_SUCCESS⟩
     (t_cose_signature_verify_short flags bp payload aad ctx).2.2.items = rest ∧
     (t_cose_signature_verify_short flags bp payload aad ctx).2.2.uLastError =
       .QCBOR_SUCCESS ∧
     (t_cose_signature_verify_short flags bp payload aad ctx).2.1 =
       [.enter_array, .headers_decode_step, .get_byte_string, .exit_array,
        .get_error_check] ++
       (t_cose_signature_verify1_short flags bp prot payload aad ps sig).2 ∧
     (t_cose_signature_verify_short flags bp payload aad ctx).1 =
       (t_cose_signature_verify1_short flags bp prot payload aad ps sig).1) ∧
    (∀ (ctx : QCBORDecodeContext) (pp : List t_cose_parameter × List Nat),
      (t_cose_headers_decode (QCBORDecode_EnterArray ctx)).2 = .ok pp →
      (QCBORDecode_ExitArray (QCBORDecode_GetByteString
         (t_cose_headers_decode (QCBORDecode_EnterArray ctx)).1).1).uLastError ≠
        .QCBOR_SUCCESS →
      (t_cose_signature_verify_short flags bp payload aad ctx).1 =
        qcbor_decode_error_to_t_cose_error
          (QCBORDecode_ExitArray (QCBORDecode_GetByteString
             (t_cose_headers_decode (QCBORDecode_EnterArray ctx)).1).1).uLastError
          .T_COSE_ERR_SIGN1_FORMAT ∧
      VerifyStep.crypto_verify_step ∉
        (t_cose_signature_verify_short flags bp payload aad ctx).2.1 ∧
      VerifyStep.tbs_hash ∉
        (t_cose_signature_verify_short flags bp payload aad ctx).2.1) := by
  constructor
  · simp [t_cose_signature_verify_short, QCBORDecode_EnterArray,
          t_cose_headers_decode, QCBORDecode_GetByteString,
          QCBORDecode_ExitArray, QCBORDecode_GetError]
  · intro ctx pp h1 h2
    simp [t_cose_signature_verify_short, QCBORDecode_GetError, h1, h2]

/-- Witness for C7 at a concrete input: part two applied to a truncated
COSE_Signature that ends after its headers, so the signature read hits the
end of the input. -/
theorem verify_short_consumes_one_witness :
    (t_cose_headers_decode (QCBORDecode_EnterArray
       ⟨[.array_open, .header_items (.ok ([], []))], .QCBOR_SUCCESS⟩)).2 =
      .ok ([], []) ∧
    (QCBORDecode_ExitArray (QCBORDecode_GetByteString
       (t_cose_headers_decode (QCBORDecode_EnterArray
          ⟨[.array_open, .header_items (.ok ([], []))], .QCBOR_SUCCESS⟩)).1).1).uLastError ≠
      .QCBOR_SUCCESS ∧
    ((t_cose_signature_verify_short 0 [] [] []
        ⟨[.array_open, .header_items (.ok ([], []))], .QCBOR_SUCCESS⟩).1 =
       qcbor_decode_error_to_t_cose_error
         (QCBORDecode_ExitArray (QCBORDecode_GetByteString
            (t_cose_headers_decode (QCBORDecode_EnterArray
               ⟨[.array_open, .header_items (.ok ([], []))], .QCBOR_SUCCESS⟩)).1).1).uLastError
         .T_COSE_ERR_SIGN1_FORMAT ∧
     VerifyStep.crypto_verify_step ∉
       (t_cose_signature_verify_short 0 [] [] []
          ⟨[.array_open, .header_items (.ok ([], []))], .QCBOR_SUCCESS⟩).2.1 ∧
     VerifyStep.tbs_hash ∉
       (t_cose_signature_verify_short 0 [] [] []
          ⟨[.array_open, .header_items (.ok ([], []))], .QCBOR_SUCCESS⟩).2.1) :=
  ⟨rfl, by decide,
   (verify_short_consumes_one 0 [] [] [] [] [] [] []).2
     ⟨[.array_open, .header_items (.ok ([], []))], .QCBOR_SUCCESS⟩
     ([], []) rfl (by decide)⟩

/-- C8: size-mode equality for the short-circuit signer's sign callback:
with a NULL encoder buffer it adds to the encoder count exactly the number
of bytes the real emission pass appends to the output, both succeeding. -/
theorem sign_short_size_mode_equality (alg : Int)
    (halg : t_cose_algorithm_is_short_circuit alg = true)
    (prot aad payload : List Nat) (cs cr : Nat) (o : List Nat) :
    ∃ emitted : List Nat,
      (t_cose_signature_sign_short_cb alg prot aad payload ⟨false, cr, o⟩).2.out =
        o ++ emitted ∧
      (t_cose_signature_sign_short_cb alg prot aad payload ⟨true, cs, []⟩).2.count =
        cs + emitted.length ∧
      (t_cose_signature_sign_short_cb alg prot aad payload ⟨false, cr, o⟩).2.count =
        cr + emitted.length ∧
      (t_cose_signature_sign_short_cb alg prot aad payload ⟨true, cs, []⟩).1 =
        .T_COSE_SUCCESS ∧
      (t_cose_signature_sign_short_cb alg prot aad payload ⟨false, cr, o⟩).1 =
        .T_COSE_SUCCESS := by
  have hsz := short_circuit_hash_size_ne_zero _ halg
  refine ⟨cbor_bstr_head (t_cose_hash_size alg) ++
            model_hash (t_cose_hash_size alg) (tbs_bytes prot [] aad payload),
          ?_, ?_, ?_, ?_, ?_⟩ <;>
    simp [t_cose_signature_sign_short_cb, halg, create_tbs_hash, hsz,
          QCBOREncode_AddBytes, QCBOREncode_AddBytesLen, t_cose_crypto_sig_size,
          model_hash_length, cbor_bstr_head_length, Nat.add_assoc]

/-- Witness for C8 at a concrete input: the 256-bit short-circuit algorithm
with empty headers, aad and payload. -/
theorem sign_short_size_mode_equality_witness :
    t_cose_algorithm_is_short_circuit T_COSE_ALGORITHM_SHORT_CIRCUIT_256 = true ∧
    (∃ emitted : List Nat,
      (t_cose_signature_sign_short_cb T_COSE_ALGORITHM_SHORT_CIRCUIT_256
         [] [] [] ⟨false, 0, []⟩).2.out = [] ++ emitted ∧
      (t_cose_signature_sign_short_cb T_COSE_ALGORITHM_SHORT_CIRCUIT_256
         [] [] [] ⟨true, 0, []⟩).2.count = 0 + emitted.length ∧
      (t_cose_signature_sign_short_cb T_COSE_ALGORITHM_SHORT_CIRCUIT_256
         [] [] [] ⟨false, 0, []⟩).2.count = 0 + emitted.length ∧
      (t_cose_signature_sign_short_cb T_COSE_ALGORITHM_SHORT_CIRCUIT_256
         [] [] [] ⟨true, 0, []⟩).1 = .T_COSE_SUCCESS ∧
      (t_cose_signature_sign_short_cb T_COSE_ALGORITHM_SHORT_CIRCUIT_256
         [] [] [] ⟨false, 0, []⟩).1 = .T_COSE_SUCCESS) :=
  ⟨by decide,
   sign_short_size_mode_equality T_COSE_ALGORITHM_SHORT_CIRCUIT_256 (by decide)
     [] [] [] 0 0 []⟩
